import Mathlib

/-!
Shallow embedding of the XRA1405 SPI GPIO-expander driver
(src/XRA1405.cpp, src/XRA1405.hpp).

The device register file is modelled as a map from decoded 5-bit register
address to the stored byte.  Every SPI transaction of the driver is recorded
as an event carrying the SPI settings it was opened with, so that theorems
can speak both about the resulting register contents and about the bytes and
settings that went over the bus.
-/

/-- Bytes are natural numbers; the embedding applies `% 256` exactly where the
C code's `uint8_t` truncation matters. -/
abbrev Byte := Nat

/-- The device register file: decoded register address (bits 6:1 of the
command byte) to stored byte. -/
abbrev RegFile := Nat → Byte

/- Constants from src/XRA1405.hpp and the Arduino/ESP32 core headers. -/

/-- XRA1405_SPI_CLOCK from XRA1405.hpp line 64: 26 MHz. -/
def XRA1405_SPI_CLOCK : Nat := 26000000

/-- Arduino MSBFIRST bit-order constant. -/
def MSBFIRST : Nat := 1

/-- Arduino SPI_MODE0 data-mode constant. -/
def SPI_MODE0 : Nat := 0

/-- SPI_ORDER from XRA1405.hpp line 65. -/
def SPI_ORDER : Nat := MSBFIRST

/-- SPI_MODE from XRA1405.hpp line 66. -/
def SPI_MODE : Nat := SPI_MODE0

/-- XRA1405_WRITE = B01111111 (XRA1405.hpp line 68). -/
def XRA1405_WRITE : Nat := 0x7F

/-- XRA1405_READ = B10000000 (XRA1405.hpp line 69). -/
def XRA1405_READ : Nat := 0x80

/-- Arduino OUTPUT pin-mode constant (ESP32 core value). -/
def OUTPUT : Nat := 0x03

/-- Arduino INPUT pin-mode constant (ESP32 core value). -/
def INPUT : Nat := 0x01

/-- Arduino INPUT_PULLUP pin-mode constant (ESP32 core value). -/
def INPUT_PULLUP : Nat := 0x05

/-- Arduino HIGH level constant. -/
def HIGH : Nat := 0x1

/-- Arduino LOW level constant. -/
def LOW : Nat := 0x0

/- Register addresses, pre-shifted left by one, from the XRA1405_Register
enumeration (XRA1405.hpp lines 72-96). -/

/-- GPIO State Register for P0-P7. -/
def GSR1 : Nat := 0x00 <<< 1

/-- GPIO State Register for P8-P15. -/
def GSR2 : Nat := 0x01 <<< 1

/-- Output Control Register for P0-P7. -/
def OCR1 : Nat := 0x02 <<< 1

/-- Output Control Register for P8-P15. -/
def OCR2 : Nat := 0x03 <<< 1

/-- Input Polarity Inversion Register for P0-P7. -/
def PIR1 : Nat := 0x04 <<< 1

/-- Input Polarity Inversion Register for P8-P15. -/
def PIR2 : Nat := 0x05 <<< 1

/-- GPIO Configuration Register for P0-P7. -/
def GCR1 : Nat := 0x06 <<< 1

/-- GPIO Configuration Register for P8-P15. -/
def GCR2 : Nat := 0x07 <<< 1

/-- Pull-up Resistor Enable Register for P0-P7. -/
def PUR1 : Nat := 0x08 <<< 1

/-- Pull-up Resistor Enable Register for P8-P15. -/
def PUR2 : Nat := 0x09 <<< 1

/-- Input Interrupt Enable Register for P0-P7. -/
def IER1 : Nat := 0x0A <<< 1

/-- Input Interrupt Enable Register for P8-P15. -/
def IER2 : Nat := 0x0B <<< 1

/-- Three-State Control Register for P0-P7. -/
def TSCR1 : Nat := 0x0C <<< 1

/-- Three-State Control Register for P8-P15. -/
def TSCR2 : Nat := 0x0D <<< 1

/-- Input Interrupt Status Register for P0-P7. -/
def ISR1 : Nat := 0x0E <<< 1

/-- Input Interrupt Status Register for P8-P15. -/
def ISR2 : Nat := 0x0F <<< 1

/-- Rising Edge Interrupt Enable Register for P0-P7. -/
def REIR1 : Nat := 0x10 <<< 1

/-- Rising Edge Interrupt Enable Register for P8-P15. -/
def REIR2 : Nat := 0x11 <<< 1

/-- Falling Edge Interrupt Enable Register for P0-P7. -/
def FEIR1 : Nat := 0x12 <<< 1

/-- Falling Edge Interrupt Enable Register for P8-P15. -/
def FEIR2 : Nat := 0x13 <<< 1

/-- Input Filter Enable Register for P0-P7. -/
def IFR1 : Nat := 0x14 <<< 1

/-- Input Filter Enable Register for P8-P15. -/
def IFR2 : Nat := 0x15 <<< 1

/-- The 22 register command-byte values of the enumeration, in order. -/
def allRegisters : List Nat :=
  [GSR1, GSR2, OCR1, OCR2, PIR1, PIR2, GCR1, GCR2, PUR1, PUR2, IER1, IER2,
   TSCR1, TSCR2, ISR1, ISR2, REIR1, REIR2, FEIR1, FEIR2, IFR1, IFR2]

/-- Interrupt types (XRA1405.hpp lines 99-105). -/
inductive XRA1405_InterruptType where
  | INTERRUPT_DISABLE
  | INTERRUPT_RISING
  | INTERRUPT_FALLING
  | INTERRUPT_BOTH
deriving DecidableEq, Repr

export XRA1405_InterruptType
  (INTERRUPT_DISABLE INTERRUPT_RISING INTERRUPT_FALLING INTERRUPT_BOTH)

/-- The settings an SPI transaction is opened with
(`SPISettings(clock, bitOrder, dataMode)`). -/
structure SPISettingsT where
  clock : Nat
  bitOrder : Nat
  dataMode : Nat
deriving DecidableEq, Repr

/-- One framed SPI transaction of the driver: a read (command byte sent,
result byte clocked back) or a write (command byte and data byte sent). -/
inductive SpiEvent where
  | read (settings : SPISettingsT) (cmd : Byte) (result : Byte)
  | write (settings : SPISettingsT) (cmd : Byte) (data : Byte)
deriving DecidableEq, Repr

/-- The settings a transaction was opened with. -/
def SpiEvent.settings : SpiEvent → SPISettingsT
  | .read st _ _ => st
  | .write st _ _ => st

/-- The fixed settings both SPI_Read and SPI_Write open every transaction
with (XRA1405.cpp lines 113 and 125):
`SPISettings(XRA1405_SPI_CLOCK, SPI_ORDER, SPI_MODE)`. -/
def spiTransactionSettings : SPISettingsT :=
  ⟨XRA1405_SPI_CLOCK, SPI_ORDER, SPI_MODE⟩

/-- Decode the register address from a command byte: bits 6:1. -/
def decodeAddr (cmd : Nat) : Nat := cmd / 2 % 64

/-- setReadMode (XRA1405.cpp lines 132-136): set the MSB to 1 to indicate a
read operation. -/
def setReadMode (commandByte : Byte) : Byte := commandByte ||| XRA1405_READ

/-- setWriteMode (XRA1405.cpp lines 138-142): ensure the MSB is 0 to indicate
a write operation. -/
def setWriteMode (commandByte : Byte) : Byte := commandByte &&& XRA1405_WRITE

/-- Modelled from the spec: the physical XRA1405 device, which is not part of
the driver source.  A read of a GPIO State Register returns, for each pin of
the bank, the level the pin actually carries: for a pin configured as output
(configuration bit = 0) that is the driven output-control bit; for an input
pin it is the external level, modelled by the byte stored at the GSR address
itself.  Reads of every other register return the stored byte. -/
def deviceRegRead (s : RegFile) (a : Nat) : Byte :=
  if a = decodeAddr GSR1 then
    ((s (decodeAddr OCR1) &&& (255 ^^^ s (decodeAddr GCR1))) |||
     (s (decodeAddr GSR1) &&& s (decodeAddr GCR1))) % 256
  else if a = decodeAddr GSR2 then
    ((s (decodeAddr OCR2) &&& (255 ^^^ s (decodeAddr GCR2))) |||
     (s (decodeAddr GSR2) &&& s (decodeAddr GCR2))) % 256
  else s a % 256

/-- SPI_Read (XRA1405.cpp lines 110-120): one read transaction; returns the
byte clocked back by the device, leaving the register file unchanged. -/
def SPI_Read (s : RegFile) (commandByte : Byte) : Byte :=
  deviceRegRead s (decodeAddr commandByte)

/-- SPI_Write (XRA1405.cpp lines 122-130): one write transaction; stores the
data byte at the addressed register. -/
def SPI_Write (s : RegFile) (commandByte dataByte : Byte) : RegFile :=
  fun r => if r = decodeAddr commandByte then dataByte % 256 else s r

/-- XRA1405_begin (XRA1405.cpp lines 3-13): frequency clamped to
[24 MHz, 26 MHz], substituting the default when out of range; returns the
frequency passed to `SPI.setFrequency`. -/
def XRA1405_begin (freq : Nat) : Nat :=
  if freq < 24000000 ∨ 26000000 < freq then XRA1405_SPI_CLOCK else freq

/-- XRA1405_pinMode (XRA1405.cpp lines 15-36).  Note that the source reduces
`pin %= 8` at line 18 before the pull-up bank test at line 32, so the
pull-up branch always selects PUR1. -/
def XRA1405_pinMode (s : RegFile) (pin mode : Nat) :
    RegFile × List SpiEvent :=
  let gpioConfigRegisterCommand := if pin < 8 then GCR1 else GCR2
  let pin1 := pin % 8
  let gpioConfigRegisterValue :=
    SPI_Read s (setReadMode gpioConfigRegisterCommand)
  let newConfigValue :=
    if mode = OUTPUT then gpioConfigRegisterValue &&& (255 ^^^ (1 <<< pin1))
    else gpioConfigRegisterValue ||| (1 <<< pin1)
  let s1 := SPI_Write s (setWriteMode gpioConfigRegisterCommand) newConfigValue
  let ev1 := [SpiEvent.read spiTransactionSettings
                (setReadMode gpioConfigRegisterCommand) gpioConfigRegisterValue,
              SpiEvent.write spiTransactionSettings
                (setWriteMode gpioConfigRegisterCommand) (newConfigValue % 256)]
  if mode = INPUT_PULLUP then
    let pullUpResistorRegisterCommand := if pin1 < 8 then PUR1 else PUR2
    let pullUpResistorRegisterValue :=
      SPI_Read s1 (setReadMode pullUpResistorRegisterCommand)
    let s2 := SPI_Write s1 (setWriteMode pullUpResistorRegisterCommand)
      (pullUpResistorRegisterValue ||| (1 <<< pin1))
    (s2, ev1 ++
      [SpiEvent.read spiTransactionSettings
         (setReadMode pullUpResistorRegisterCommand) pullUpResistorRegisterValue,
       SpiEvent.write spiTransactionSettings
         (setWriteMode pullUpResistorRegisterCommand)
         ((pullUpResistorRegisterValue ||| (1 <<< pin1)) % 256)])
  else (s1, ev1)

/-- XRA1405_digitalWrite (XRA1405.cpp lines 38-51). -/
def XRA1405_digitalWrite (s : RegFile) (pin value : Nat) :
    RegFile × List SpiEvent :=
  let outputControlRegisterCommand := if pin < 8 then OCR1 else OCR2
  let pin1 := pin % 8
  let outputControlRegisterValue :=
    SPI_Read s (setReadMode outputControlRegisterCommand)
  let newOutputControlValue :=
    if value = HIGH then outputControlRegisterValue ||| (1 <<< pin1)
    else outputControlRegisterValue &&& (255 ^^^ (1 <<< pin1))
  (SPI_Write s (setWriteMode outputControlRegisterCommand) newOutputControlValue,
   [SpiEvent.read spiTransactionSettings
      (setReadMode outputControlRegisterCommand) outputControlRegisterValue,
    SpiEvent.write spiTransactionSettings
      (setWriteMode outputControlRegisterCommand) (newOutputControlValue % 256)])

/-- XRA1405_digitalRead (XRA1405.cpp lines 53-63): returns the pin level and
the single read transaction issued. -/
def XRA1405_digitalRead (s : RegFile) (pin : Nat) : Nat × List SpiEvent :=
  let gpioStateRegisterCommand := if pin < 8 then GSR1 else GSR2
  let pin1 := pin % 8
  let gpioStateRegisterValue := SPI_Read s (setReadMode gpioStateRegisterCommand)
  ((gpioStateRegisterValue >>> pin1) &&& 0x01,
   [SpiEvent.read spiTransactionSettings
      (setReadMode gpioStateRegisterCommand) gpioStateRegisterValue])

/-- XRA1405_setPullUp (XRA1405.cpp lines 65-79). -/
def XRA1405_setPullUp (s : RegFile) (pin : Nat) (enabled : Bool) :
    RegFile × List SpiEvent :=
  let pullUpResistorRegisterCommand := if pin < 8 then PUR1 else PUR2
  let pin1 := pin % 8
  let pullUpResistorRegisterValue :=
    SPI_Read s (setReadMode pullUpResistorRegisterCommand)
  let newPullUpValue :=
    if enabled then pullUpResistorRegisterValue ||| (1 <<< pin1)
    else pullUpResistorRegisterValue &&& (255 ^^^ (1 <<< pin1))
  (SPI_Write s (setWriteMode pullUpResistorRegisterCommand) newPullUpValue,
   [SpiEvent.read spiTransactionSettings
      (setReadMode pullUpResistorRegisterCommand) pullUpResistorRegisterValue,
    SpiEvent.write spiTransactionSettings
      (setWriteMode pullUpResistorRegisterCommand) (newPullUpValue % 256)])

/-- configureEdgeInterrupt (XRA1405.cpp lines 144-169), including the two
defensive re-clearing writes of the INTERRUPT_DISABLE special case. -/
def configureEdgeInterrupt (s : RegFile) (pin : Nat)
    (interruptType : XRA1405_InterruptType) : RegFile × List SpiEvent :=
  let risingEdgeRegisterCommand := if pin < 8 then REIR1 else REIR2
  let fallingEdgeRegisterCommand := if pin < 8 then FEIR1 else FEIR2
  let pin1 := pin % 8
  let enableRising :=
    interruptType = INTERRUPT_RISING ∨ interruptType = INTERRUPT_BOTH
  let enableFalling :=
    interruptType = INTERRUPT_FALLING ∨ interruptType = INTERRUPT_BOTH
  let risingValue0 := SPI_Read s (setReadMode risingEdgeRegisterCommand)
  let risingValue :=
    if enableRising then risingValue0 ||| (1 <<< pin1)
    else risingValue0 &&& (255 ^^^ (1 <<< pin1))
  let s1 := SPI_Write s (setWriteMode risingEdgeRegisterCommand) risingValue
  let fallingValue0 := SPI_Read s1 (setReadMode fallingEdgeRegisterCommand)
  let fallingValue :=
    if enableFalling then fallingValue0 ||| (1 <<< pin1)
    else fallingValue0 &&& (255 ^^^ (1 <<< pin1))
  let s2 := SPI_Write s1 (setWriteMode fallingEdgeRegisterCommand) fallingValue
  let ev :=
    [SpiEvent.read spiTransactionSettings
       (setReadMode risingEdgeRegisterCommand) risingValue0,
     SpiEvent.write spiTransactionSettings
       (setWriteMode risingEdgeRegisterCommand) (risingValue % 256),
     SpiEvent.read spiTransactionSettings
       (setReadMode fallingEdgeRegisterCommand) fallingValue0,
     SpiEvent.write spiTransactionSettings
       (setWriteMode fallingEdgeRegisterCommand) (fallingValue % 256)]
  if interruptType = INTERRUPT_DISABLE then
    let s3 := SPI_Write s2 (setWriteMode risingEdgeRegisterCommand)
      (risingValue &&& (255 ^^^ (1 <<< pin1)))
    let s4 := SPI_Write s3 (setWriteMode fallingEdgeRegisterCommand)
      (fallingValue &&& (255 ^^^ (1 <<< pin1)))
    (s4, ev ++
      [SpiEvent.write spiTransactionSettings
         (setWriteMode risingEdgeRegisterCommand)
         ((risingValue &&& (255 ^^^ (1 <<< pin1))) % 256),
       SpiEvent.write spiTransactionSettings
         (setWriteMode fallingEdgeRegisterCommand)
         ((fallingValue &&& (255 ^^^ (1 <<< pin1))) % 256)])
  else (s2, ev)

/-- XRA1405_setInterrupt (XRA1405.cpp lines 81-93).  Note that the source
reduces `pin %= 8` at line 84 and then passes the reduced pin to
configureEdgeInterrupt at line 92. -/
def XRA1405_setInterrupt (s : RegFile) (pin : Nat)
    (interruptType : XRA1405_InterruptType) : RegFile × List SpiEvent :=
  let interruptEnableRegisterCommand := if pin < 8 then IER1 else IER2
  let pin1 := pin % 8
  let interruptEnableRegisterValue :=
    SPI_Read s (setReadMode interruptEnableRegisterCommand)
  let newValue := interruptEnableRegisterValue ||| (1 <<< pin1)
  let s1 := SPI_Write s (setWriteMode interruptEnableRegisterCommand) newValue
  let rest := configureEdgeInterrupt s1 pin1 interruptType
  (rest.1,
   [SpiEvent.read spiTransactionSettings
      (setReadMode interruptEnableRegisterCommand) interruptEnableRegisterValue,
    SpiEvent.write spiTransactionSettings
      (setWriteMode interruptEnableRegisterCommand) (newValue % 256)] ++ rest.2)

/-- XRA1405_clearInterrupts (XRA1405.cpp lines 95-108): two reads, no write. -/
def XRA1405_clearInterrupts (s : RegFile) : RegFile × List SpiEvent :=
  (s,
   [SpiEvent.read spiTransactionSettings (setReadMode ISR1)
      (SPI_Read s (setReadMode ISR1)),
    SpiEvent.read spiTransactionSettings (setReadMode ISR2)
      (SPI_Read s (setReadMode ISR2))])

/-- Modelled from the spec: edge configuration without the defensive
re-clearing writes of the `disabled` special case, used to compare the
source's behaviour against the simplified variant the spec allows. -/
def configureEdgeInterruptSimplified (s : RegFile) (pin : Nat)
    (interruptType : XRA1405_InterruptType) : RegFile × List SpiEvent :=
  let risingEdgeRegisterCommand := if pin < 8 then REIR1 else REIR2
  let fallingEdgeRegisterCommand := if pin < 8 then FEIR1 else FEIR2
  let pin1 := pin % 8
  let enableRising :=
    interruptType = INTERRUPT_RISING ∨ interruptType = INTERRUPT_BOTH
  let enableFalling :=
    interruptType = INTERRUPT_FALLING ∨ interruptType = INTERRUPT_BOTH
  let risingValue0 := SPI_Read s (setReadMode risingEdgeRegisterCommand)
  let risingValue :=
    if enableRising then risingValue0 ||| (1 <<< pin1)
    else risingValue0 &&& (255 ^^^ (1 <<< pin1))
  let s1 := SPI_Write s (setWriteMode risingEdgeRegisterCommand) risingValue
  let fallingValue0 := SPI_Read s1 (setReadMode fallingEdgeRegisterCommand)
  let fallingValue :=
    if enableFalling then fallingValue0 ||| (1 <<< pin1)
    else fallingValue0 &&& (255 ^^^ (1 <<< pin1))
  let s2 := SPI_Write s1 (setWriteMode fallingEdgeRegisterCommand) fallingValue
  (s2,
   [SpiEvent.read spiTransactionSettings
      (setReadMode risingEdgeRegisterCommand) risingValue0,
    SpiEvent.write spiTransactionSettings
      (setWriteMode risingEdgeRegisterCommand) (risingValue % 256),
    SpiEvent.read spiTransactionSettings
      (setReadMode fallingEdgeRegisterCommand) fallingValue0,
    SpiEvent.write spiTransactionSettings
      (setWriteMode fallingEdgeRegisterCommand) (fallingValue % 256)])

/- Bit-twiddling helper lemmas. -/

/-- Shifting 1 left by i yields the byte whose only set bit is bit i. -/
theorem testBit_shiftLeft_one (i j : Nat) :
    (1 <<< i).testBit j = decide (i = j) := by
  rw [Nat.one_shiftLeft]
  exact Nat.testBit_two_pow

/-- Setting bit i leaves every other bit unchanged. -/
theorem testBit_or_ne {i j : Nat} (h : j ≠ i) (v : Nat) :
    (v ||| (1 <<< i)).testBit j = v.testBit j := by
  have h' : i ≠ j := Ne.symm h
  rw [Nat.testBit_or, testBit_shiftLeft_one]
  simp [h']

/-- Setting bit i makes bit i true. -/
theorem testBit_or_self (v i : Nat) : (v ||| (1 <<< i)).testBit i = true := by
  rw [Nat.testBit_or, testBit_shiftLeft_one]
  simp

/-- Clearing bit i through the 8-bit mask leaves every other low bit
unchanged. -/
theorem testBit_and_mask_ne {i j : Nat} (hj : j < 8) (h : j ≠ i) (v : Nat) :
    (v &&& (255 ^^^ (1 <<< i))).testBit j = v.testBit j := by
  have h' : i ≠ j := Ne.symm h
  rw [Nat.testBit_and, Nat.testBit_xor, testBit_shiftLeft_one,
      show (255 : Nat) = 2 ^ 8 - 1 from rfl, Nat.testBit_two_pow_sub_one]
  simp [h', hj]

/-- Clearing bit i through the 8-bit mask makes bit i false. -/
theorem testBit_and_mask_self {i : Nat} (hi : i < 8) (v : Nat) :
    (v &&& (255 ^^^ (1 <<< i))).testBit i = false := by
  rw [Nat.testBit_and, Nat.testBit_xor, testBit_shiftLeft_one,
      show (255 : Nat) = 2 ^ 8 - 1 from rfl, Nat.testBit_two_pow_sub_one]
  simp [hi]

/-- Byte truncation keeps all bits below 8. -/
theorem testBit_mod256 {j : Nat} (hj : j < 8) (v : Nat) :
    (v % 256).testBit j = v.testBit j := by
  have h256 : (256 : Nat) = 2 ^ 8 := rfl
  rw [h256, Nat.testBit_mod_two_pow]
  simp [hj]

/-- Applying SPI_Write to a register index is a pointwise update. -/
theorem SPI_Write_apply (s : RegFile) (cmd d r : Nat) :
    SPI_Write s cmd d r = if r = decodeAddr cmd then d % 256 else s r := rfl

/-- A write whose data agrees with the addressed register at bit j preserves
bit j of every register. -/
theorem SPI_Write_testBit (s : RegFile) (cmd d r j : Nat) (hj : j < 8)
    (hd : d.testBit j = (s (decodeAddr cmd)).testBit j) :
    (SPI_Write s cmd d r).testBit j = (s r).testBit j := by
  rw [SPI_Write_apply]
  by_cases h : r = decodeAddr cmd
  · rw [if_pos h, testBit_mod256 hj, hd, h]
  · rw [if_neg h]

/-- Reading any register other than the two GPIO State Registers returns the
stored byte truncated to 8 bits. -/
theorem SPI_Read_eq (s : RegFile) (cmd : Nat)
    (h0 : decodeAddr cmd ≠ 0) (h1 : decodeAddr cmd ≠ 1) :
    SPI_Read s cmd = s (decodeAddr cmd) % 256 := by
  have g1 : decodeAddr GSR1 = 0 := rfl
  have g2 : decodeAddr GSR2 = 1 := rfl
  rw [SPI_Read, deviceRegRead, g1, g2, if_neg h0, if_neg h1]

/-- Bits below 8 of a non-GSR read agree with the stored register byte. -/
theorem SPI_Read_testBit (s : RegFile) (cmd j : Nat) (hj : j < 8)
    (h0 : decodeAddr cmd ≠ 0) (h1 : decodeAddr cmd ≠ 1) :
    (SPI_Read s cmd).testBit j = (s (decodeAddr cmd)).testBit j := by
  rw [SPI_Read_eq s cmd h0 h1, testBit_mod256 hj]

/-- One set-bit read-modify-write cycle on a non-GSR register preserves every
bit at an off-target index below 8, at every register. -/
theorem rmw_or_frame (s : RegFile) (cmd i j : Nat) (hj : j < 8) (hne : j ≠ i)
    (h0 : decodeAddr (setReadMode cmd) ≠ 0) (h1 : decodeAddr (setReadMode cmd) ≠ 1)
    (ha : decodeAddr (setWriteMode cmd) = decodeAddr (setReadMode cmd)) :
    ∀ r, ((SPI_Write s (setWriteMode cmd)
        (SPI_Read s (setReadMode cmd) ||| (1 <<< i))) r).testBit j
      = (s r).testBit j := by
  intro r
  apply SPI_Write_testBit _ _ _ _ _ hj
  rw [testBit_or_ne hne, SPI_Read_testBit s _ j hj h0 h1, ha]

/-- One clear-bit read-modify-write cycle on a non-GSR register preserves
every bit at an off-target index below 8, at every register. -/
theorem rmw_and_frame (s : RegFile) (cmd i j : Nat) (hj : j < 8) (hne : j ≠ i)
    (h0 : decodeAddr (setReadMode cmd) ≠ 0) (h1 : decodeAddr (setReadMode cmd) ≠ 1)
    (ha : decodeAddr (setWriteMode cmd) = decodeAddr (setReadMode cmd)) :
    ∀ r, ((SPI_Write s (setWriteMode cmd)
        (SPI_Read s (setReadMode cmd) &&& (255 ^^^ (1 <<< i)))) r).testBit j
      = (s r).testBit j := by
  intro r
  apply SPI_Write_testBit _ _ _ _ _ hj
  rw [testBit_and_mask_ne hj hne, SPI_Read_testBit s _ j hj h0 h1, ha]

/-- XRA1405_digitalWrite changes no bit at an index below 8 other than
pin % 8, in any register. -/
theorem digitalWrite_frame (s : RegFile) (pin value r j : Nat)
    (hj : j < 8) (hne : j ≠ pin % 8) :
    ((XRA1405_digitalWrite s pin value).1 r).testBit j = (s r).testBit j := by
  unfold XRA1405_digitalWrite
  by_cases hp : pin < 8 <;> by_cases hv : value = HIGH <;>
    simp only [hp, hv, if_true, if_false, ite_true, ite_false]
  · exact rmw_or_frame s OCR1 _ j hj hne (by decide) (by decide) (by decide) r
  · exact rmw_and_frame s OCR1 _ j hj hne (by decide) (by decide) (by decide) r
  · exact rmw_or_frame s OCR2 _ j hj hne (by decide) (by decide) (by decide) r
  · exact rmw_and_frame s OCR2 _ j hj hne (by decide) (by decide) (by decide) r

/-- XRA1405_setPullUp changes no bit at an index below 8 other than pin % 8,
in any register. -/
theorem setPullUp_frame (s : RegFile) (pin : Nat) (enabled : Bool) (r j : Nat)
    (hj : j < 8) (hne : j ≠ pin % 8) :
    ((XRA1405_setPullUp s pin enabled).1 r).testBit j = (s r).testBit j := by
  unfold XRA1405_setPullUp
  by_cases hp : pin < 8 <;> cases enabled <;>
    simp only [hp, if_true, if_false, ite_true, ite_false, Bool.false_eq_true,
      cond_true, cond_false]
  · exact rmw_and_frame s PUR1 _ j hj hne (by decide) (by decide) (by decide) r
  · exact rmw_or_frame s PUR1 _ j hj hne (by decide) (by decide) (by decide) r
  · exact rmw_and_frame s PUR2 _ j hj hne (by decide) (by decide) (by decide) r
  · exact rmw_or_frame s PUR2 _ j hj hne (by decide) (by decide) (by decide) r

/-- XRA1405_pinMode changes no bit at an index below 8 other than pin % 8,
in any register. -/
theorem pinMode_frame (s : RegFile) (pin mode r j : Nat)
    (hj : j < 8) (hne : j ≠ pin % 8) :
    ((XRA1405_pinMode s pin mode).1 r).testBit j = (s r).testBit j := by
  have hm : pin % 8 < 8 := Nat.mod_lt _ (by norm_num)
  unfold XRA1405_pinMode
  by_cases hpu : mode = INPUT_PULLUP
  · have ho : ¬ mode = OUTPUT := by rw [hpu]; decide
    by_cases hp : pin < 8 <;>
      simp only [hp, hpu, ho, hm, if_true, if_false, ite_true, ite_false]
    · exact (rmw_or_frame _ PUR1 _ j hj hne (by decide) (by decide)
        (by decide) r).trans
        (rmw_or_frame s GCR1 _ j hj hne (by decide) (by decide) (by decide) r)
    · exact (rmw_or_frame _ PUR1 _ j hj hne (by decide) (by decide)
        (by decide) r).trans
        (rmw_or_frame s GCR2 _ j hj hne (by decide) (by decide) (by decide) r)
  · by_cases hp : pin < 8 <;> by_cases ho : mode = OUTPUT <;>
      simp only [hp, hpu, ho, if_true, if_false, ite_true, ite_false]
    · exact rmw_and_frame s GCR1 _ j hj hne (by decide) (by decide) (by decide) r
    · exact rmw_or_frame s GCR1 _ j hj hne (by decide) (by decide) (by decide) r
    · exact rmw_and_frame s GCR2 _ j hj hne (by decide) (by decide) (by decide) r
    · exact rmw_or_frame s GCR2 _ j hj hne (by decide) (by decide) (by decide) r

/-- The full disable sequence of configureEdgeInterrupt (two clear-bit RMW
cycles followed by the two defensive re-clearing writes) preserves every bit
at an off-target index below 8, at every register. -/
theorem edge_disable_frame (s : RegFile) (rc fc i j : Nat)
    (hj : j < 8) (hne : j ≠ i)
    (h0r : decodeAddr (setReadMode rc) ≠ 0) (h1r : decodeAddr (setReadMode rc) ≠ 1)
    (h0f : decodeAddr (setReadMode fc) ≠ 0) (h1f : decodeAddr (setReadMode fc) ≠ 1)
    (har : decodeAddr (setWriteMode rc) = decodeAddr (setReadMode rc))
    (haf : decodeAddr (setWriteMode fc) = decodeAddr (setReadMode fc))
    (hrf : decodeAddr (setWriteMode rc) ≠ decodeAddr (setWriteMode fc)) :
    ∀ r,
      ((SPI_Write
          (SPI_Write
            (SPI_Write
              (SPI_Write s (setWriteMode rc)
                (SPI_Read s (setReadMode rc) &&& (255 ^^^ (1 <<< i))))
              (setWriteMode fc)
              (SPI_Read
                (SPI_Write s (setWriteMode rc)
                  (SPI_Read s (setReadMode rc) &&& (255 ^^^ (1 <<< i))))
                (setReadMode fc) &&& (255 ^^^ (1 <<< i))))
            (setWriteMode rc)
            ((SPI_Read s (setReadMode rc) &&& (255 ^^^ (1 <<< i))) &&&
              (255 ^^^ (1 <<< i))))
          (setWriteMode fc)
          ((SPI_Read
              (SPI_Write s (setWriteMode rc)
                (SPI_Read s (setReadMode rc) &&& (255 ^^^ (1 <<< i))))
              (setReadMode fc) &&& (255 ^^^ (1 <<< i))) &&&
            (255 ^^^ (1 <<< i)))) r).testBit j
        = (s r).testBit j := by
  intro r
  refine Eq.trans (SPI_Write_testBit _ _ _ _ _ hj ?_) ?_
  · rw [testBit_and_mask_ne hj hne, SPI_Write_apply,
      if_neg (Ne.symm hrf), SPI_Write_apply, if_pos rfl, testBit_mod256 hj]
  refine Eq.trans (SPI_Write_testBit _ _ _ _ _ hj ?_) ?_
  · rw [testBit_and_mask_ne hj hne, SPI_Write_apply,
      if_neg hrf, SPI_Write_apply, if_pos rfl, testBit_mod256 hj]
  exact (rmw_and_frame _ fc _ j hj hne h0f h1f haf r).trans
    (rmw_and_frame s rc _ j hj hne h0r h1r har r)

/-- configureEdgeInterrupt changes no bit at an index below 8 other than
pin % 8, in any register, for any interrupt type. -/
theorem configureEdgeInterrupt_frame (s : RegFile) (pin : Nat)
    (t : XRA1405_InterruptType) (r j : Nat) (hj : j < 8) (hne : j ≠ pin % 8) :
    ((configureEdgeInterrupt s pin t).1 r).testBit j = (s r).testBit j := by
  unfold configureEdgeInterrupt
  by_cases hp : pin < 8 <;>
    simp only [hp, if_true, if_false, ite_true, ite_false] <;> cases t
  · exact edge_disable_frame s REIR1 FEIR1 _ j hj hne (by decide) (by decide)
      (by decide) (by decide) (by decide) (by decide) (by decide) r
  · exact (rmw_and_frame _ FEIR1 _ j hj hne (by decide) (by decide)
      (by decide) r).trans
      (rmw_or_frame s REIR1 _ j hj hne (by decide) (by decide) (by decide) r)
  · exact (rmw_or_frame _ FEIR1 _ j hj hne (by decide) (by decide)
      (by decide) r).trans
      (rmw_and_frame s REIR1 _ j hj hne (by decide) (by decide) (by decide) r)
  · exact (rmw_or_frame _ FEIR1 _ j hj hne (by decide) (by decide)
      (by decide) r).trans
      (rmw_or_frame s REIR1 _ j hj hne (by decide) (by decide) (by decide) r)
  · exact edge_disable_frame s REIR2 FEIR2 _ j hj hne (by decide) (by decide)
      (by decide) (by decide) (by decide) (by decide) (by decide) r
  · exact (rmw_and_frame _ FEIR2 _ j hj hne (by decide) (by decide)
      (by decide) r).trans
      (rmw_or_frame s REIR2 _ j hj hne (by decide) (by decide) (by decide) r)
  · exact (rmw_or_frame _ FEIR2 _ j hj hne (by decide) (by decide)
      (by decide) r).trans
      (rmw_and_frame s REIR2 _ j hj hne (by decide) (by decide) (by decide) r)
  · exact (rmw_or_frame _ FEIR2 _ j hj hne (by decide) (by decide)
      (by decide) r).trans
      (rmw_or_frame s REIR2 _ j hj hne (by decide) (by decide) (by decide) r)

/-- XRA1405_setInterrupt changes no bit at an index below 8 other than
pin % 8, in any register. -/
theorem setInterrupt_frame (s : RegFile) (pin : Nat)
    (t : XRA1405_InterruptType) (r j : Nat) (hj : j < 8) (hne : j ≠ pin % 8) :
    ((XRA1405_setInterrupt s pin t).1 r).testBit j = (s r).testBit j := by
  unfold XRA1405_setInterrupt
  by_cases hp : pin < 8 <;>
    simp only [hp, if_true, if_false, ite_true, ite_false]
  · exact (configureEdgeInterrupt_frame _ (pin % 8) t r j hj (by omega)).trans
      (rmw_or_frame s IER1 _ j hj hne (by decide) (by decide) (by decide) r)
  · exact (configureEdgeInterrupt_frame _ (pin % 8) t r j hj (by omega)).trans
      (rmw_or_frame s IER2 _ j hj hne (by decide) (by decide) (by decide) r)

/-- Writing a register twice in a row (with one interleaved write to another
register repeated as well) leaves the same register file as writing each
once. -/
theorem SPI_Write_write_write (s : RegFile) (a b x y : Nat) :
    SPI_Write (SPI_Write (SPI_Write (SPI_Write s a x) b y) a x) b y
      = SPI_Write (SPI_Write s a x) b y := by
  funext r
  simp only [SPI_Write_apply]
  split_ifs <;> rfl

/-- Nat conjunction with the same mask twice equals conjunction once. -/
theorem and_mask_idem (v m : Nat) : v &&& m &&& m = v &&& m := by
  apply Nat.eq_of_testBit_eq
  intro i
  simp [Nat.testBit_and, Bool.and_assoc]

/-- C1: the claim fails on the code.  With every register zero,
set_pin_mode(pin = 8, input_with_pullup) leaves the high-bank pull-up
register PUR2 untouched and instead sets bit 0 of the low-bank register
PUR1, because XRA1405_pinMode reduces the pin modulo 8 before selecting the
pull-up bank.  (It does select the high-bank configuration register GCR2.) -/
theorem pinMode_pullup_pin8_wrong_bank :
    (XRA1405_pinMode (fun _ => 0) 8 INPUT_PULLUP).1 (decodeAddr PUR2) = 0 ∧
    (XRA1405_pinMode (fun _ => 0) 8 INPUT_PULLUP).1 (decodeAddr PUR1) = 1 ∧
    (XRA1405_pinMode (fun _ => 0) 8 INPUT_PULLUP).1 (decodeAddr GCR2) = 1 := by
  refine ⟨rfl, rfl, rfl⟩

/-- C3: the claim fails on the code.  With every register zero,
set_interrupt(pin = 8, both) leaves the high-bank edge registers REIR2 and
FEIR2 untouched (bit 0 stays 0) and instead sets bit 0 of the low-bank
registers REIR1 and FEIR1, because XRA1405_setInterrupt reduces the pin
modulo 8 before delegating to configureEdgeInterrupt. -/
theorem setInterrupt_both_pin8_wrong_bank :
    ((XRA1405_setInterrupt (fun _ => 0) 8 INTERRUPT_BOTH).1
        (decodeAddr REIR2)).testBit 0 = false ∧
    ((XRA1405_setInterrupt (fun _ => 0) 8 INTERRUPT_BOTH).1
        (decodeAddr FEIR2)).testBit 0 = false ∧
    ((XRA1405_setInterrupt (fun _ => 0) 8 INTERRUPT_BOTH).1
        (decodeAddr REIR1)).testBit 0 = true ∧
    ((XRA1405_setInterrupt (fun _ => 0) 8 INTERRUPT_BOTH).1
        (decodeAddr FEIR1)).testBit 0 = true := by
  refine ⟨rfl, rfl, rfl, rfl⟩

/-- C4: the claim fails on the code for pins 8-15.  With every register
0xFF, set_interrupt(pin = 8, disabled) leaves bit 0 of the high-bank edge
registers REIR2 and FEIR2 at 1 (the claim requires 0); it clears bit 0 of
the low-bank registers instead, again because the pin is reduced modulo 8
before edge configuration.  The IER2 bit for the pin does end at 1. -/
theorem setInterrupt_disable_pin8_wrong_bank :
    ((XRA1405_setInterrupt (fun _ => 0xFF) 8 INTERRUPT_DISABLE).1
        (decodeAddr REIR2)).testBit 0 = true ∧
    ((XRA1405_setInterrupt (fun _ => 0xFF) 8 INTERRUPT_DISABLE).1
        (decodeAddr FEIR2)).testBit 0 = true ∧
    ((XRA1405_setInterrupt (fun _ => 0xFF) 8 INTERRUPT_DISABLE).1
        (decodeAddr IER2)).testBit 0 = true ∧
    ((XRA1405_setInterrupt (fun _ => 0xFF) 8 INTERRUPT_DISABLE).1
        (decodeAddr REIR1)).testBit 0 = false := by
  refine ⟨rfl, rfl, rfl, rfl⟩

/-- C5: in edge configuration with mode exactly disabled, the two defensive
writes repeat the write events already issued for the rising-edge and
falling-edge registers byte-for-byte, and the final register file is the one
the variant without the two extra writes produces. -/
theorem edge_disable_redundant (s : RegFile) (pin : Nat) :
    (configureEdgeInterrupt s pin INTERRUPT_DISABLE).1
      = (configureEdgeInterruptSimplified s pin INTERRUPT_DISABLE).1 ∧
    (configureEdgeInterrupt s pin INTERRUPT_DISABLE).2.get? 4
      = (configureEdgeInterrupt s pin INTERRUPT_DISABLE).2.get? 1 ∧
    (configureEdgeInterrupt s pin INTERRUPT_DISABLE).2.get? 5
      = (configureEdgeInterrupt s pin INTERRUPT_DISABLE).2.get? 3 := by
  have c1 : (INTERRUPT_DISABLE = INTERRUPT_RISING ∨
      INTERRUPT_DISABLE = INTERRUPT_BOTH) = False := by simp
  have c2 : (INTERRUPT_DISABLE = INTERRUPT_FALLING ∨
      INTERRUPT_DISABLE = INTERRUPT_BOTH) = False := by simp
  have c3 : (INTERRUPT_DISABLE = INTERRUPT_DISABLE) = True := by simp
  unfold configureEdgeInterrupt configureEdgeInterruptSimplified
  by_cases hp : pin < 8 <;>
    simp only [hp, c1, c2, c3, if_true, if_false, ite_true, ite_false,
      and_mask_idem] <;>
    exact ⟨SPI_Write_write_write s _ _ _ _, rfl, rfl⟩

/-- If bit i of v is set, the C idiom (v >> i) & 1 yields 1. -/
theorem shiftRight_and_one_eq_one (v i : Nat) (h : v.testBit i = true) :
    (v >>> i) &&& 1 = 1 := by
  rw [Nat.and_one_is_mod, Nat.shiftRight_eq_div_pow]
  rw [Nat.testBit_to_div_mod] at h
  exact of_decide_eq_true h

/-- Bit 3 of the byte the device returns for the end-to-end scenario is set,
whatever the external input levels are. -/
theorem read_high_bit3 (x : Nat) :
    ((((8 ||| (x &&& 247)) % 256) >>> 3) &&& 1) = 1 := by
  apply shiftRight_and_one_eq_one
  rw [testBit_mod256 (by norm_num), Nat.testBit_or]
  rw [show Nat.testBit 8 3 = true from by decide]
  rfl

/-- C6: starting from configuration register = 0xFF and output-control
register = 0x00 (all other registers arbitrary), set_pin_mode(3, output)
then digital_write(3, high) then digital_read(3) returns high, leaves the
configuration register at 0xF7 (bit 3 cleared, all other bits keeping their
initial 1s) and the output-control register at 0x08 (bit 3 set, all other
bits keeping their initial 0s). -/
theorem endToEnd_pin3 (s : RegFile)
    (hGCR : s (decodeAddr GCR1) = 0xFF) (hOCR : s (decodeAddr OCR1) = 0x00) :
    (XRA1405_digitalRead
        (XRA1405_digitalWrite (XRA1405_pinMode s 3 OUTPUT).1 3 HIGH).1 3).1
      = HIGH ∧
    (XRA1405_digitalWrite (XRA1405_pinMode s 3 OUTPUT).1 3 HIGH).1
        (decodeAddr GCR1) = 0xF7 ∧
    (XRA1405_digitalWrite (XRA1405_pinMode s 3 OUTPUT).1 3 HIGH).1
        (decodeAddr OCR1) = 0x08 := by
  have h6 : s 6 = 0xFF := hGCR
  have h2 : s 2 = 0x00 := hOCR
  have hpm : (XRA1405_pinMode s 3 OUTPUT).1
      = SPI_Write s (setWriteMode GCR1) (s 6 % 256 &&& 247) := rfl
  rw [h6, show (0xFF : Nat) % 256 &&& 247 = 247 from by decide] at hpm
  rw [hpm]
  have hdw : (XRA1405_digitalWrite (SPI_Write s (setWriteMode GCR1) 247) 3
        HIGH).1
      = SPI_Write (SPI_Write s (setWriteMode GCR1) 247) (setWriteMode OCR1)
          (SPI_Write s (setWriteMode GCR1) 247 2 % 256 ||| 8) := rfl
  rw [show SPI_Write s (setWriteMode GCR1) 247 2 = s 2 from rfl, h2,
    show (0x00 : Nat) % 256 ||| 8 = 8 from by decide] at hdw
  rw [hdw]
  refine ⟨?_, rfl, rfl⟩
  have h22 : SPI_Write (SPI_Write s (setWriteMode GCR1) 247) (setWriteMode OCR1)
      8 2 = 8 := rfl
  have h26 : SPI_Write (SPI_Write s (setWriteMode GCR1) 247) (setWriteMode OCR1)
      8 6 = 247 := rfl
  have h20 : SPI_Write (SPI_Write s (setWriteMode GCR1) 247) (setWriteMode OCR1)
      8 0 = s 0 := rfl
  have hdr : (XRA1405_digitalRead
      (SPI_Write (SPI_Write s (setWriteMode GCR1) 247) (setWriteMode OCR1) 8)
      3).1
      = ((((SPI_Write (SPI_Write s (setWriteMode GCR1) 247) (setWriteMode OCR1)
              8 2 &&&
            (255 ^^^ SPI_Write (SPI_Write s (setWriteMode GCR1) 247)
              (setWriteMode OCR1) 8 6)) |||
           (SPI_Write (SPI_Write s (setWriteMode GCR1) 247) (setWriteMode OCR1)
              8 0 &&&
            SPI_Write (SPI_Write s (setWriteMode GCR1) 247) (setWriteMode OCR1)
              8 6)) % 256) >>> 3) &&& 1 := rfl
  rw [hdr, h22, h26, h20, show (8 : Nat) &&& (255 ^^^ 247) = 8 from by decide]
  exact read_high_bit3 (s 0)

/-- Witness for endToEnd_pin3 at a concrete register file. -/
theorem endToEnd_pin3_witness :
    ((fun a => if a = 6 then (0xFF : Nat) else 0) (decodeAddr GCR1) = 0xFF) ∧
    ((fun a => if a = 6 then (0xFF : Nat) else 0) (decodeAddr OCR1) = 0x00) ∧
    ((XRA1405_digitalRead
        (XRA1405_digitalWrite
          (XRA1405_pinMode (fun a => if a = 6 then (0xFF : Nat) else 0) 3
            OUTPUT).1 3 HIGH).1 3).1 = HIGH ∧
     (XRA1405_digitalWrite
        (XRA1405_pinMode (fun a => if a = 6 then (0xFF : Nat) else 0) 3
          OUTPUT).1 3 HIGH).1 (decodeAddr GCR1) = 0xF7 ∧
     (XRA1405_digitalWrite
        (XRA1405_pinMode (fun a => if a = 6 then (0xFF : Nat) else 0) 3
          OUTPUT).1 3 HIGH).1 (decodeAddr OCR1) = 0x08) :=
  ⟨rfl, rfl, endToEnd_pin3 (fun a => if a = 6 then (0xFF : Nat) else 0) rfl rfl⟩

/-- C7: for every register address of the enumeration, the read command byte
has bit 7 set, the write command byte has bit 7 clear, bit 0 is clear in
both, and bits 6:1 carry the 5-bit register address unchanged. -/
theorem commandByte_framing (c : Nat) (hc : c ∈ allRegisters) :
    (setReadMode c).testBit 7 = true ∧
    (setWriteMode c).testBit 7 = false ∧
    (setReadMode c).testBit 0 = false ∧
    (setWriteMode c).testBit 0 = false ∧
    decodeAddr (setReadMode c) = c / 2 ∧
    decodeAddr (setWriteMode c) = c / 2 ∧
    c / 2 < 32 := by
  revert c
  decide

/-- Witness for commandByte_framing at the GCR1 register. -/
theorem commandByte_framing_witness :
    GCR1 ∈ allRegisters ∧
    ((setReadMode GCR1).testBit 7 = true ∧
     (setWriteMode GCR1).testBit 7 = false ∧
     (setReadMode GCR1).testBit 0 = false ∧
     (setWriteMode GCR1).testBit 0 = false ∧
     decodeAddr (setReadMode GCR1) = GCR1 / 2 ∧
     decodeAddr (setWriteMode GCR1) = GCR1 / 2 ∧
     GCR1 / 2 < 32) :=
  ⟨by decide, commandByte_framing GCR1 (by decide)⟩

/-- C8: XRA1405_begin substitutes the default 26 MHz for any frequency
outside [24 MHz, 26 MHz] and keeps any frequency inside the range. -/
theorem begin_frequency_clamp (freq : Nat) :
    ((freq < 24000000 ∨ 26000000 < freq) → XRA1405_begin freq = 26000000) ∧
    (24000000 ≤ freq → freq ≤ 26000000 → XRA1405_begin freq = freq) := by
  constructor
  · intro h
    unfold XRA1405_begin
    rw [if_pos h]
    rfl
  · intro h1 h2
    unfold XRA1405_begin
    rw [if_neg (by omega)]

/-- Witness for begin_frequency_clamp at 10 MHz (out of range) and 25 MHz
(in range). -/
theorem begin_frequency_clamp_witness :
    ((10000000 < 24000000 ∨ 26000000 < 10000000) ∧
      XRA1405_begin 10000000 = 26000000) ∧
    (24000000 ≤ 25000000 ∧ 25000000 ≤ 26000000 ∧
      XRA1405_begin 25000000 = 25000000) :=
  ⟨⟨Or.inl (by decide), (begin_frequency_clamp 10000000).1 (Or.inl (by decide))⟩,
   ⟨by decide, by decide, (begin_frequency_clamp 25000000).2 (by decide) (by decide)⟩⟩

/-- C9: every per-pin operation called with a pin argument p ≥ 16 (still a
uint8_t value) behaves exactly like the same operation on pin 8 + (p mod 8):
same final register file, same return value, same SPI transactions. -/
theorem pin_wraparound (s : RegFile) (p mode value : Nat) (enabled : Bool)
    (t : XRA1405_InterruptType) (h16 : 16 ≤ p) (h256 : p < 256) :
    XRA1405_pinMode s p mode = XRA1405_pinMode s (8 + p % 8) mode ∧
    XRA1405_digitalWrite s p value = XRA1405_digitalWrite s (8 + p % 8) value ∧
    XRA1405_digitalRead s p = XRA1405_digitalRead s (8 + p % 8) ∧
    XRA1405_setPullUp s p enabled = XRA1405_setPullUp s (8 + p % 8) enabled ∧
    XRA1405_setInterrupt s p t = XRA1405_setInterrupt s (8 + p % 8) t := by
  have h1 : ¬ p < 8 := by omega
  have h2 : ¬ 8 + p % 8 < 8 := by omega
  have h3 : (8 + p % 8) % 8 = p % 8 := by omega
  unfold XRA1405_pinMode XRA1405_digitalWrite XRA1405_digitalRead
    XRA1405_setPullUp XRA1405_setInterrupt
  simp [h1, h2, h3]

/-- Witness for pin_wraparound at pin 17. -/
theorem pin_wraparound_witness :
    (16 ≤ 17 ∧ 17 < 256) ∧
    XRA1405_digitalRead (fun _ => 0) 17
      = XRA1405_digitalRead (fun _ => 0) (8 + 17 % 8) :=
  ⟨⟨by decide, by decide⟩,
   (pin_wraparound (fun _ => 0) 17 OUTPUT HIGH true INTERRUPT_BOTH
     (by decide) (by decide)).2.2.1⟩

/-- Every transaction configureEdgeInterrupt issues is opened with the fixed
transaction settings. -/
theorem settings_of_mem_configureEdge (s : RegFile) (pin : Nat)
    (t : XRA1405_InterruptType) (e : SpiEvent)
    (he : e ∈ (configureEdgeInterrupt s pin t).2) :
    e.settings = spiTransactionSettings := by
  unfold configureEdgeInterrupt at he
  by_cases hp : pin < 8 <;> by_cases hd : t = INTERRUPT_DISABLE <;>
    simp only [hp, hd, eq_self_iff_true, if_true, if_false, ite_true,
      ite_false, List.cons_append, List.nil_append, List.mem_cons,
      List.mem_append, List.not_mem_nil, or_false] at he <;>
    first
      | (rcases he with rfl | rfl | rfl | rfl | rfl | rfl <;> rfl)
      | (rcases he with rfl | rfl | rfl | rfl <;> rfl)

/-- C10: every SPI transaction issued by any operation is opened with the
fixed settings clock = 26 MHz, MSB-first, SPI mode 0, independently of the
frequency configured by XRA1405_begin (which no transaction consults). -/
theorem spi_settings_fixed (s : RegFile) (pin mode value : Nat)
    (enabled : Bool) (t : XRA1405_InterruptType) (e : SpiEvent)
    (he : e ∈ (XRA1405_pinMode s pin mode).2 ∨
          e ∈ (XRA1405_digitalWrite s pin value).2 ∨
          e ∈ (XRA1405_digitalRead s pin).2 ∨
          e ∈ (XRA1405_setPullUp s pin enabled).2 ∨
          e ∈ (XRA1405_setInterrupt s pin t).2 ∨
          e ∈ (XRA1405_clearInterrupts s).2) :
    e.settings = ⟨26000000, MSBFIRST, SPI_MODE0⟩ := by
  have hs : spiTransactionSettings = ⟨26000000, MSBFIRST, SPI_MODE0⟩ := rfl
  rw [← hs]
  rcases he with he | he | he | he | he | he
  · unfold XRA1405_pinMode at he
    by_cases hp : pin < 8 <;> by_cases hpu : mode = INPUT_PULLUP <;>
      simp only [hp, hpu, eq_self_iff_true, if_true, if_false, ite_true,
        ite_false, List.cons_append, List.nil_append, List.mem_cons,
        List.mem_append, List.not_mem_nil, or_false] at he <;>
      first
        | (rcases he with rfl | rfl | rfl | rfl <;> rfl)
        | (rcases he with rfl | rfl <;> rfl)
  · unfold XRA1405_digitalWrite at he
    by_cases hp : pin < 8 <;>
      simp only [hp, if_true, if_false, ite_true, ite_false, List.mem_cons,
        List.not_mem_nil, or_false] at he <;>
      rcases he with rfl | rfl <;> rfl
  · unfold XRA1405_digitalRead at he
    by_cases hp : pin < 8 <;>
      simp only [hp, if_true, if_false, ite_true, ite_false, List.mem_cons,
        List.not_mem_nil, or_false] at he <;>
      rcases he with rfl <;> rfl
  · unfold XRA1405_setPullUp at he
    by_cases hp : pin < 8 <;>
      simp only [hp, if_true, if_false, ite_true, ite_false, List.mem_cons,
        List.not_mem_nil, or_false] at he <;>
      rcases he with rfl | rfl <;> rfl
  · unfold XRA1405_setInterrupt at he
    by_cases hp : pin < 8 <;>
      simp only [hp, if_true, if_false, ite_true, ite_false,
        List.cons_append, List.nil_append, List.mem_cons,
        List.mem_append] at he <;>
      rcases he with rfl | rfl | he <;>
      first
        | rfl
        | exact settings_of_mem_configureEdge _ _ _ _ he
  · unfold XRA1405_clearInterrupts at he
    simp only [List.mem_cons, List.not_mem_nil, or_false] at he
    rcases he with rfl | rfl <;> rfl

/-- Witness for spi_settings_fixed at the single read transaction of
digital_read on pin 3. -/
theorem spi_settings_fixed_witness :
    (SpiEvent.read spiTransactionSettings (setReadMode GSR1)
        (SPI_Read (fun _ => 0) (setReadMode GSR1))).settings
      = ⟨26000000, MSBFIRST, SPI_MODE0⟩ :=
  spi_settings_fixed (fun _ => 0) 3 OUTPUT HIGH true INTERRUPT_BOTH _
    (by decide)

/-- C2: for any starting register file V, every single-bit mutating
operation (digital_write, set_pull_up, set_pin_mode, and set_interrupt with
its edge-register updates) changes at most the bit at index pin % 8: every
bit of every register at an index below 8 different from pin % 8 keeps its
value from V, so each byte written back differs from the byte read in at
most that one bit. -/
theorem rmw_frame_effect (s : RegFile) (pin mode value r j : Nat)
    (enabled : Bool) (t : XRA1405_InterruptType)
    (hj : j < 8) (hne : j ≠ pin % 8) :
    ((XRA1405_digitalWrite s pin value).1 r).testBit j = (s r).testBit j ∧
    ((XRA1405_setPullUp s pin enabled).1 r).testBit j = (s r).testBit j ∧
    ((XRA1405_pinMode s pin mode).1 r).testBit j = (s r).testBit j ∧
    ((XRA1405_setInterrupt s pin t).1 r).testBit j = (s r).testBit j :=
  ⟨digitalWrite_frame s pin value r j hj hne,
   setPullUp_frame s pin enabled r j hj hne,
   pinMode_frame s pin mode r j hj hne,
   setInterrupt_frame s pin t r j hj hne⟩

/-- Witness for rmw_frame_effect at register file constantly 0xAA, pin 3,
register 2, bit 0. -/
theorem rmw_frame_effect_witness :
    (0 : Nat) < 8 ∧ (0 : Nat) ≠ 3 % 8 ∧
    (((XRA1405_digitalWrite (fun _ => 0xAA) 3 HIGH).1 2).testBit 0
        = (0xAA : Nat).testBit 0 ∧
     ((XRA1405_setPullUp (fun _ => 0xAA) 3 true).1 2).testBit 0
        = (0xAA : Nat).testBit 0 ∧
     ((XRA1405_pinMode (fun _ => 0xAA) 3 OUTPUT).1 2).testBit 0
        = (0xAA : Nat).testBit 0 ∧
     ((XRA1405_setInterrupt (fun _ => 0xAA) 3 INTERRUPT_DISABLE).1 2).testBit 0
        = (0xAA : Nat).testBit 0) :=
  ⟨by decide, by decide,
   rmw_frame_effect (fun _ => 0xAA) 3 OUTPUT HIGH 2 0 true INTERRUPT_DISABLE
     (by decide) (by decide)⟩
